import Mathlib

/- Verification development for the MovieSentiments data-collection pipeline.

   The embedding below translates the three source files into Lean:
   - nlpwebapp/data_collection/RottenTomatoesScraper/scraper.py
     (namespace DataCollection: the page extractor and score calculator),
   - nlpwebapp/data_collection/top_100_movie_reviews.py
     (namespace DataCollection: the batch fetcher get_responses and the
     dataset assembler generate_df),
   - nlpwebapp/RottenTomatoesScraper/RottenTomatoesScraper.py
     (namespace WebApp: the older scraper variant that raises NotFoundError).

   Python exceptions are modelled by the explicit error type PyErr and
   fallible code returns Except PyErr. HTML documents (BeautifulSoup trees)
   are modelled by the Node tree together with the find / find_all
   operations the source uses. Python floats produced by the score
   calculator (counts plus halves, always exact) are modelled by Rat. -/

namespace MovieSentiments

/-- Python exception values raised (explicitly or implicitly) by the code.
    Each constructor records one concrete raise site or runtime error:
    - typeErrorNotTag / typeErrorWrongClass: the two explicit TypeError
      raises in calculate_score;
    - keyErrorClass / indexErrorClass: the implicit KeyError / IndexError
      a Tag without a class attribute (or with an empty class list)
      produces in the expression star_display["class"][0];
    - noneHasNoText: the AttributeError produced by soup.find(...).text
      when find returns None;
    - noneHasNoElapsed: the AttributeError produced by response.elapsed
      when a response in the list is None (failed transport);
    - noneHasNoContent: the AttributeError produced by response.content
      when a response is None;
    - noMovieTitle / noReviewText / noStarDisplays: the explicit
      AttributeError raises in scraper.py;
    - noResponses: the explicit AttributeError raise in get_responses
      (the spec calls this EmptyResultError);
    - blocked403Again: the requests HTTPError raised on a 403 during the
      retry attempt (the spec calls this BlockedError);
    - valueErrorArrayLengths: the pandas ValueError ("All arrays must be
      of the same length") raised by pd.DataFrame.from_dict when the
      column lists of generate_df differ in length;
    - notFound missing: the NotFoundError class of the WebApp variant. -/
inductive PyErr where
  | typeErrorNotTag
  | typeErrorWrongClass
  | keyErrorClass
  | indexErrorClass
  | noneHasNoText
  | noneHasNoElapsed
  | noneHasNoContent
  | noMovieTitle
  | noReviewText
  | noStarDisplays
  | noResponses
  | blocked403Again
  | valueErrorArrayLengths
  | notFound (missing : String)
deriving DecidableEq, Repr

/-- An HTML node of a parsed document: either a bare string
    (a NavigableString) or a tag with a name, an optional class attribute
    (none when the tag has no class attribute; the list holds the
    whitespace-split class values) and a list of children in document
    order. A whole parsed document (soup) is the root node. -/
inductive Node where
  | str (s : String)
  | tag (name : String) (classes : Option (List String)) (children : List Node)

mutual

/-- Text content of a node: concatenation of all descendant strings in
    document order (the .text property of bs4). -/
def Node.text : Node → String
  | .str s => s
  | .tag _ _ cs => Node.textList cs

/-- Concatenated text of a list of nodes. -/
def Node.textList : List Node → String
  | [] => ""
  | c :: cs => Node.text c ++ Node.textList cs

end

mutual

/-- All strict descendants of a node, in document (preorder) order. -/
def Node.descendants : Node → List Node
  | .str _ => []
  | .tag _ _ cs => Node.descendantsList cs

/-- Preorder listing of the nodes of a forest: each root followed by its
    descendants, left to right. -/
def Node.descendantsList : List Node → List Node
  | [] => []
  | c :: cs => c :: (Node.descendants c ++ Node.descendantsList cs)

end

/-- Whether the node is a tag (a bs4.element.Tag, as opposed to a
    NavigableString). -/
def Node.isTag : Node → Bool
  | .tag _ _ _ => true
  | .str _ => false

/-- Whether the node is a tag carrying the given class value (the bs4
    class_ filter: true when the class attribute contains the value). -/
def Node.hasClass (c : String) : Node → Bool
  | .tag _ (some cs) _ => cs.contains c
  | _ => false

/-- Whether the node is a tag with the given tag name. -/
def Node.nameIs (t : String) : Node → Bool
  | .tag name _ _ => name == t
  | .str _ => false

/-- Model of soup.find_all(...) with recursive=True: all descendants
    satisfying the filter, in document order. -/
def find_all (soup : Node) (p : Node → Bool) : List Node :=
  soup.descendants.filter p

/-- Model of soup.find(...): the first descendant satisfying the filter,
    or none. -/
def find (soup : Node) (p : Node → Bool) : Option Node :=
  (find_all soup p).head?

/-- Model of node.find_all(..., recursive=False): only the direct
    children are searched. -/
def find_all_direct (p : Node → Bool) : Node → List Node
  | .tag _ _ cs => cs.filter p
  | .str _ => []

/-- Model of the Python slice s[:-k]: all characters of s except the
    last k (the empty string when s has at most k characters). -/
def pyDropLast (k : Nat) (s : String) : String :=
  String.mk (s.data.take (s.data.length - k))

/-- Model of a Python list comprehension over a fallible function: the
    elements are produced left to right and the first raised error
    aborts and propagates. -/
def mapExcept (f : α → Except ε β) : List α → Except ε (List β)
  | [] => .ok []
  | a :: l =>
    match f a with
    | .error e => .error e
    | .ok b =>
      match mapExcept f l with
      | .error e => .error e
      | .ok bs => .ok (b :: bs)

namespace DataCollection

/-- Scraper state after __init__ of
    data_collection/RottenTomatoesScraper/scraper.py: the four attributes
    the constructor sets. -/
structure RottenTomatoesScraper where
  review_scores : List ℚ
  review_text : List String
  title : String
  titles : List String

/-- Embedding of RottenTomatoesScraper.calculate_score. Python checks,
    in order: isinstance of Tag (TypeError), then the expression
    star_display["class"][0] (KeyError when the class attribute is
    absent, IndexError when it is empty) compared against "star-display"
    (TypeError on mismatch); then it counts the direct children carrying
    the filled / half classes and returns full + half * 0.5. -/
def calculate_score (star_display : Node) : Except PyErr ℚ :=
  match star_display with
  | .str _ => .error .typeErrorNotTag
  | .tag _ none _ => .error .keyErrorClass
  | .tag _ (some []) _ => .error .indexErrorClass
  | .tag name (some (c :: rest)) children =>
    if c ≠ "star-display" then .error .typeErrorWrongClass
    else
      let full_star_count :=
        (find_all_direct (Node.hasClass ("star-display__filled"))
          (.tag name (some (c :: rest)) children)).length
      let half_star_count :=
        (find_all_direct (Node.hasClass ("star-display__half"))
          (.tag name (some (c :: rest)) children)).length
      .ok ((full_star_count : ℚ) + (half_star_count : ℚ) * (1/2))

/-- Embedding of RottenTomatoesScraper.extract_review_scores:
    find_all(class_="star-display"), AttributeError when none are found,
    then calculate_score over each widget (the list comprehension
    propagates the first raised error). -/
def extract_review_scores (soup : Node) : Except PyErr (List ℚ) :=
  let star_displays := find_all soup (Node.hasClass ("star-display"))
  if star_displays.isEmpty then .error .noStarDisplays
  else mapExcept calculate_score star_displays

/-- Embedding of RottenTomatoesScraper.extract_review_text:
    find_all("p", class_="audience-reviews__review"), AttributeError when
    none are found, then the text of each node. -/
def extract_review_text (soup : Node) : Except PyErr (List String) :=
  let reviews := find_all soup
    (fun n => n.nameIs ("p") && n.hasClass ("audience-reviews__review"))
  if reviews.isEmpty then .error .noReviewText
  else .ok (reviews.map Node.text)

/-- Embedding of RottenTomatoesScraper.extract_movie_title of
    scraper.py: soup.find("h2", class_="panel-heading").text crashes
    with an AttributeError when find returns None; an explicit
    AttributeError is raised when the raw text is empty; otherwise the
    last 8 characters are sliced off (title_dirty[:-8], which yields the
    empty string when the text has at most 8 characters). -/
def extract_movie_title (soup : Node) : Except PyErr String :=
  match find soup (fun n => n.nameIs ("h2") && n.hasClass ("panel-heading")) with
  | none => .error .noneHasNoText
  | some node =>
    let title_dirty := node.text
    if title_dirty = "" then .error .noMovieTitle
    else .ok (pyDropLast 8 title_dirty)

/-- Embedding of RottenTomatoesScraper.__init__ of scraper.py: the four
    attributes are computed in source order (scores, text, title, then
    titles = [title for review in review_scores]); any raised error
    propagates out of the constructor. -/
def RottenTomatoesScraper.init (soup : Node) :
    Except PyErr RottenTomatoesScraper :=
  match extract_review_scores soup with
  | .error e => .error e
  | .ok review_scores =>
    match extract_review_text soup with
    | .error e => .error e
    | .ok review_text =>
      match extract_movie_title soup with
      | .error e => .error e
      | .ok title =>
        .ok ⟨review_scores, review_text, title,
              review_scores.map (fun _ => title)⟩

/-- Dictionary returned by RottenTomatoesScraper.to_dict of scraper.py. -/
structure ReviewDict where
  Title : List String
  ReviewText : List String
  Score : List ℚ

/-- Embedding of RottenTomatoesScraper.to_dict of scraper.py. -/
def RottenTomatoesScraper.to_dict (s : RottenTomatoesScraper) : ReviewDict :=
  ⟨s.titles, s.review_text, s.review_scores⟩

/-- The two hard-coded header dictionaries of top_100_movie_reviews.py;
    only their identity matters for control flow. -/
inductive HeaderProfile where
  | safari_header
  | firefox_header
deriving DecidableEq, Repr

/-- A non-None grequests response: its HTTP status code, the elapsed
    seconds the scan loop accumulates, and the page content (already
    parsed into a node tree for the extractor). -/
structure Response where
  status_code : Nat
  elapsed : Nat
  content : Node

/-- Transport model: what a GET of a URL under a header profile yields.
    none models a request whose transport failed (the grequests
    exception_handler only prints, leaving None in the result list). -/
abbrev Net : Type := HeaderProfile → String → Option Response

/-- Outcome of the status-scan loop of get_responses over the response
    list, in order: the loop crashes on the first None entry (the
    response.elapsed attribute access), otherwise stops at the first
    response whose status_code is 403, otherwise finishes cleanly. -/
inductive ScanOutcome where
  | crashNone
  | found403
  | clean
deriving DecidableEq, Repr

/-- The scan performed by the for-loop of get_responses: each iteration
    first touches response.elapsed (AttributeError when the entry is
    None) and then compares status_code against 403. -/
def scan403 : List (Option Response) → ScanOutcome
  | [] => .clean
  | none :: _ => .crashNone
  | some r :: rest => if r.status_code == 403 then .found403 else scan403 rest

/-- Shared body of get_responses for one attempt: map the URLs through
    the transport (grequests.map keeps request order), scan the results,
    and on a 403 defer to the caller-supplied continuation (the recursive
    retry call on attempt 1, the HTTPError raise on attempt 2). Besides
    the Python return value the embedding also returns the log of
    (profile, url) requests actually issued, so that retry-once claims
    can be stated. -/
def get_responses_core (net : Net) (urls : List String) (hdr : HeaderProfile)
    (on403 : Except PyErr (List (Option Response)) × List (HeaderProfile × String)) :
    Except PyErr (List (Option Response)) × List (HeaderProfile × String) :=
  let responses := urls.map (net hdr)
  let log := urls.map (fun u => (hdr, u))
  match scan403 responses with
  | .crashNone => (.error .noneHasNoElapsed, log)
  | .found403 => (on403.1, log ++ on403.2)
  | .clean =>
    if responses.isEmpty then (.error .noResponses, log)
    else (.ok responses, log)

/-- Embedding of get_responses(urls, firefox_header, retry=True): the
    recursive call made after a 403 on the first attempt. A 403 here
    raises the HTTPError ("Received 403 error again"). -/
def get_responses_retryT (net : Net) (urls : List String) :
    Except PyErr (List (Option Response)) × List (HeaderProfile × String) :=
  get_responses_core net urls .firefox_header (.error .blocked403Again, [])

/-- Embedding of get_responses(urls, headers, retry=False) together with
    the request log: a 403 on this first attempt discards the results
    and re-issues the whole batch once under firefox_header. -/
def get_responsesT (net : Net) (urls : List String) (hdr : HeaderProfile) :
    Except PyErr (List (Option Response)) × List (HeaderProfile × String) :=
  get_responses_core net urls hdr (get_responses_retryT net urls)

/-- The Python return value of get_responses (the request log dropped). -/
def get_responses (net : Net) (urls : List String) (hdr : HeaderProfile) :
    Except PyErr (List (Option Response)) :=
  (get_responsesT net urls hdr).1

/-- The pandas data frame generate_df builds: the three extended column
    lists. -/
structure DataFrame where
  Title : List String
  ReviewText : List String
  ReviewScore : List ℚ

/-- One iteration step of generate_df: append one scraped page to the
    accumulated columns. -/
def DataFrame.append (acc page : DataFrame) : DataFrame :=
  ⟨acc.Title ++ page.Title, acc.ReviewText ++ page.ReviewText,
    acc.ReviewScore ++ page.ReviewScore⟩

/-- The validation pd.DataFrame.from_dict applies to the column
    dictionary: all three column arrays must have the same length. -/
def DataFrame.sameLength (df : DataFrame) : Bool :=
  df.Title.length == df.ReviewText.length
    && df.ReviewText.length == df.ReviewScore.length

/-- Columns of one scraped page, in the shape generate_df extends them. -/
def pageFrame (md : RottenTomatoesScraper) : DataFrame :=
  ⟨md.titles, md.review_text, md.review_scores⟩

/-- The for-loop of generate_df: each response in turn is scraped
    (response.content on a None entry crashes with an AttributeError)
    and its columns are appended; any error raised by the scraper
    constructor propagates out of the loop unconditionally. -/
def generate_df_loop (acc : DataFrame) :
    List (Option Response) → Except PyErr DataFrame
  | [] => .ok acc
  | none :: _ => .error .noneHasNoContent
  | some r :: rest =>
    match RottenTomatoesScraper.init r.content with
    | .error e => .error e
    | .ok md => generate_df_loop (acc.append (pageFrame md)) rest

/-- Embedding of generate_df of top_100_movie_reviews.py: the loop over
    the responses followed by pd.DataFrame.from_dict(data), which
    raises the ValueError "All arrays must be of the same length" when
    the accumulated column lists are misaligned. -/
def generate_df (responses : List (Option Response)) : Except PyErr DataFrame :=
  match generate_df_loop ⟨[], [], []⟩ responses with
  | .error e => .error e
  | .ok df => if df.sameLength then .ok df else .error .valueErrorArrayLengths

/-- Concatenation of the page columns of a list of scraped pages, in
    order: what generate_df produces when every page scrapes cleanly. -/
def concatFrames (mds : List RottenTomatoesScraper) : DataFrame :=
  ⟨(mds.map RottenTomatoesScraper.titles).flatten,
    (mds.map RottenTomatoesScraper.review_text).flatten,
    (mds.map RottenTomatoesScraper.review_scores).flatten⟩

/-- Slot-buffer model of concurrent result collection: starting from a
    buffer, perform index-addressed writes in the given order. -/
def runWrites (buf : List α) : List (Nat × α) → List α
  | [] => buf
  | (i, v) :: ws => runWrites (buf.set i v) ws

/-- Model of grequests.map issuing the requests concurrently: tasks
    complete in an arbitrary order (a permutation of the request
    indices), and each completed task writes its result into the buffer
    slot addressed by its request index; the buffer is then read out in
    index order. -/
def grequests_map (net : Net) (hdr : HeaderProfile) (urls : List String)
    (order : List Nat) : List (Option Response) :=
  runWrites ((List.replicate urls.length none))
    (order.map (fun i => (i, net hdr (urls.getD i ""))))

/-- The response list get_responses scans and returns: one slot per URL,
    in input order. -/
def get_responses_attempt (net : Net) (urls : List String)
    (hdr : HeaderProfile) : List (Option Response) :=
  urls.map (net hdr)

end DataCollection

namespace WebApp

/-- Scraper state after __init__ of
    nlpwebapp/RottenTomatoesScraper/RottenTomatoesScraper.py (the older
    variant raising NotFoundError). -/
structure RottenTomatoesScraper where
  review_scores : List ℚ
  review_text : List String
  title : String

/-- Dictionary returned by the WebApp to_dict (its score column is named
    Scores). -/
structure ReviewDict where
  Title : List String
  ReviewText : List String
  Scores : List ℚ

/-- Embedding of the WebApp to_dict: the title list is built on the fly,
    one copy of the title per extracted score. -/
def RottenTomatoesScraper.to_dict (s : RottenTomatoesScraper) : ReviewDict :=
  ⟨s.review_scores.map (fun _ => s.title), s.review_text, s.review_scores⟩

/-- Embedding of extract_movie_title of the WebApp variant: identical to
    the data_collection one except that the empty raw text raises
    NotFoundError("movie title"); an absent title node still crashes
    with the AttributeError of None.text. -/
def extract_movie_title (soup : Node) : Except PyErr String :=
  match find soup (fun n => n.nameIs ("h2") && n.hasClass ("panel-heading")) with
  | none => .error .noneHasNoText
  | some node =>
    let title_dirty := node.text
    if title_dirty = "" then .error (.notFound ("movie title"))
    else .ok (pyDropLast 8 title_dirty)

end WebApp

/- Spec-side notions and concrete fixtures used by the claims below. -/

/-- Whether a node passes the input guard of calculate_score: a tag
    whose class attribute is present and whose first class value is
    "star-display". This is the notion of a rating-widget node the
    claims quantify over. -/
def isStarWidget : Node → Bool
  | .tag _ (some (c :: _)) _ => c == ("star-display")
  | _ => false

/-- A review-text paragraph node with the given text. -/
def reviewP (s : String) : Node :=
  .tag ("p") (some [("audience-reviews__review")]) [.str s]

/-- A panel-heading title node with the given text. -/
def titleH2 (s : String) : Node :=
  .tag ("h2") (some [("panel-heading")]) [.str s]

/-- A star-display widget with the given numbers of filled and half
    slot-marker children. -/
def starW (fills halves : Nat) : Node :=
  .tag ("span") (some [("star-display")])
    (List.replicate fills (.tag ("span") (some [("star-display__filled")]) [])
      ++ List.replicate halves (.tag ("span") (some [("star-display__half")]) []))

/-- A page with 3 rating widgets but only 2 review-text nodes: the
    structurally misaligned document of claims C2 and C9. -/
def mismatchedPage : Node :=
  .tag ("html") none
    [titleH2 ("Fake Movie Title Reviews."), starW 4 0, starW 3 1, starW 2 0,
      reviewP ("Loved it"), reviewP ("Hated it")]

/-- A well-formed page: one title, one widget, one review text. -/
def pageFoo : Node :=
  .tag ("html") none [titleH2 ("Foo Reviews."), starW 4 0, reviewP ("Nice")]

/-- A page with no star-display widgets at all: extraction fails on it. -/
def pageNoStars : Node :=
  .tag ("html") none [titleH2 ("Bar Reviews."), reviewP ("Meh")]

/-- A page whose title node text is exactly the 8-character decorative
    suffix: non-empty raw text that becomes empty after slicing. -/
def suffixOnlyPage : Node := .tag ("html") none [titleH2 ("Reviews.")]

/-- A page with no title node at all. -/
def noTitlePage : Node := .tag ("html") none [starW 1 0, reviewP ("Ok")]

/-- A page whose title node has empty text. -/
def emptyTitlePage : Node := .tag ("html") none [titleH2 ("")]

/-- A rating widget with six filled slot markers: its score exceeds 5. -/
def starWidgetSix : Node := starW 6 0

/-- Transport in which every URL answers with HTTP 403 under every
    profile. -/
def netAll403 : DataCollection.Net :=
  fun _ _ => some ⟨403, 0, .tag ("html") none []⟩

/-- Transport in which the URL "a" fails (None) and every other URL
    answers 403. -/
def netNoneThen403 : DataCollection.Net :=
  fun _ url => if url = ("a") then none else some ⟨403, 0, .tag ("html") none []⟩

/-- Transport in which every request fails (None). -/
def netNone : DataCollection.Net := fun _ _ => none

/-- Transport in which every URL answers 200 with its URL as content. -/
def netOk : DataCollection.Net := fun _ u => some ⟨200, 0, .str u⟩

/-- Response fixture wrapping the well-formed page. -/
def respFoo : DataCollection.Response := ⟨200, 1, pageFoo⟩

/-- Response fixture wrapping the widget-free page. -/
def respNoStars : DataCollection.Response := ⟨200, 1, pageNoStars⟩

/-- Response fixture wrapping the misaligned page (3 widgets, 2 review
    texts), on which every extraction succeeds but the columns end up
    with differing lengths. -/
def respMismatched : DataCollection.Response := ⟨200, 1, mismatchedPage⟩

/- Helper lemmas shared by several claims. -/

/-- Value of calculate_score on any node passing the widget guard: the
    count of filled direct children plus half the count of half direct
    children. -/
theorem calculate_score_widget (name : String) (rest : List String)
    (children : List Node) :
    DataCollection.calculate_score
        (.tag name (some (("star-display") :: rest)) children)
      = .ok (((children.filter (Node.hasClass ("star-display__filled"))).length : ℚ)
          + ((children.filter (Node.hasClass ("star-display__half"))).length : ℚ)
            * (1/2)) := by
  simp [DataCollection.calculate_score, find_all_direct]

/-- C4: for a rating-widget node with f filled and h half direct-child
    slot markers, calculate_score returns exactly f + 0.5 * h; for any
    node that fails the widget guard (wrong type or wrong class), it
    raises an input-validation error (the TypeError of the two explicit
    guards, or the KeyError / IndexError of the class lookup) instead of
    returning a score such as 0. -/
theorem claim_C4 :
    (∀ (name : String) (rest : List String) (children : List Node) (f h : Nat),
        (children.filter (Node.hasClass ("star-display__filled"))).length = f →
        (children.filter (Node.hasClass ("star-display__half"))).length = h →
        DataCollection.calculate_score
            (.tag name (some (("star-display") :: rest)) children)
          = .ok ((f : ℚ) + (h : ℚ) * (1/2)))
    ∧ (∀ n : Node, isStarWidget n = false →
        ∃ e, DataCollection.calculate_score n = .error e) := by
  constructor
  · intro name rest children f h hf hh
    subst hf; subst hh
    exact calculate_score_widget name rest children
  · intro n hn
    cases n with
    | str s => exact ⟨_, rfl⟩
    | tag name classes children =>
      cases classes with
      | none => exact ⟨_, rfl⟩
      | some cs =>
        cases cs with
        | nil => exact ⟨_, rfl⟩
        | cons c rest =>
          have hc : c ≠ ("star-display") := by
            simpa [isStarWidget] using hn
          exact ⟨PyErr.typeErrorWrongClass,
            by simp [DataCollection.calculate_score, hc]⟩

/-- C4 witness: a widget with one filled and one half marker scores
    1 + 0.5, and a bare string input is rejected with an error. -/
theorem claim_C4_witness :
    DataCollection.calculate_score (starW 1 1)
        = .ok (((1 : Nat) : ℚ) + ((1 : Nat) : ℚ) * (1/2))
    ∧ ∃ e, DataCollection.calculate_score (.str ("not a tag")) = .error e :=
  ⟨claim_C4.1 ("span") [] _ 1 1 rfl rfl, claim_C4.2 (.str ("not a tag")) rfl⟩

/-- C8 (amended): the score of a rating-widget node with f filled and h
    half markers is never negative and is a natural multiple of 0.5,
    but it is only bounded by f + h, the number of marker children: the
    code performs no clamping, so the 5.0 cap of the claim holds only
    for widgets carrying at most five markers. -/
theorem claim_C8_amended (name : String) (rest : List String)
    (children : List Node) (f h : Nat)
    (hf : (children.filter (Node.hasClass ("star-display__filled"))).length = f)
    (hh : (children.filter (Node.hasClass ("star-display__half"))).length = h) :
    ∃ q : ℚ,
      DataCollection.calculate_score
          (.tag name (some (("star-display") :: rest)) children) = .ok q
      ∧ 0 ≤ q ∧ (∃ k : Nat, q = (k : ℚ) * (1/2)) ∧ q ≤ (f : ℚ) + (h : ℚ) := by
  subst hf; subst hh
  refine ⟨_, calculate_score_widget name rest children, ?_, ?_, ?_⟩
  · positivity
  · refine ⟨2 * (children.filter (Node.hasClass ("star-display__filled"))).length
      + (children.filter (Node.hasClass ("star-display__half"))).length, ?_⟩
    push_cast
    ring
  · have hH : (0 : ℚ)
        ≤ ((children.filter (Node.hasClass ("star-display__half"))).length : ℚ) :=
      Nat.cast_nonneg _
    linarith

/-- C8 witness: the amended bound instantiated on a widget with two
    filled and one half marker. -/
theorem claim_C8_witness :
    ∃ q : ℚ, DataCollection.calculate_score (starW 2 1) = .ok q
      ∧ 0 ≤ q ∧ (∃ k : Nat, q = (k : ℚ) * (1/2))
      ∧ q ≤ ((2 : Nat) : ℚ) + ((1 : Nat) : ℚ) :=
  claim_C8_amended ("span") [] _ 2 1 rfl rfl

/-- C8 counterexample: a rating widget with six filled markers scores 6,
    which exceeds the claimed 5.0 cap. -/
theorem claim_C8_counterexample :
    DataCollection.calculate_score starWidgetSix = .ok 6 ∧ ¬ ((6 : ℚ) ≤ 5) := by
  constructor
  · show DataCollection.calculate_score
        (.tag ("span") (some [("star-display")])
          (List.replicate 6 (.tag ("span") (some [("star-display__filled")]) [])
            ++ List.replicate 0 (.tag ("span") (some [("star-display__half")]) [])))
        = .ok 6
    rw [calculate_score_widget]
    have h6 : ((List.replicate 6 (Node.tag ("span") (some [("star-display__filled")]) [])
        ++ List.replicate 0 (Node.tag ("span") (some [("star-display__half")]) [])).filter
          (Node.hasClass ("star-display__filled"))).length = 6 := rfl
    have h0 : ((List.replicate 6 (Node.tag ("span") (some [("star-display__filled")]) [])
        ++ List.replicate 0 (Node.tag ("span") (some [("star-display__half")]) [])).filter
          (Node.hasClass ("star-display__half"))).length = 0 := rfl
    rw [h6, h0]
    norm_num
  · norm_num

/-- Length preservation of a successful fallible comprehension. -/
theorem mapExcept_length (f : α → Except ε β) :
    ∀ (l : List α) (out : List β), mapExcept f l = .ok out → out.length = l.length := by
  intro l
  induction l with
  | nil =>
    intro out h
    cases h
    rfl
  | cons a l ih =>
    intro out h
    unfold mapExcept at h
    cases hfa : f a with
    | error e => rw [hfa] at h; cases h
    | ok b =>
      rw [hfa] at h
      cases hml : mapExcept f l with
      | error e => rw [hml] at h; cases h
      | ok bs =>
        rw [hml] at h
        cases h
        simp [ih bs hml]

/-- Decomposition of a successful scraper construction into the three
    successful extractions it is made of. -/
theorem init_ok_elim {doc : Node} {s : DataCollection.RottenTomatoesScraper}
    (h : DataCollection.RottenTomatoesScraper.init doc = .ok s) :
    ∃ scores texts title,
      DataCollection.extract_review_scores doc = .ok scores
      ∧ DataCollection.extract_review_text doc = .ok texts
      ∧ DataCollection.extract_movie_title doc = .ok title
      ∧ s = ⟨scores, texts, title, scores.map (fun _ => title)⟩ := by
  unfold DataCollection.RottenTomatoesScraper.init at h
  cases h1 : DataCollection.extract_review_scores doc with
  | error e => rw [h1] at h; cases h
  | ok scores =>
    rw [h1] at h
    cases h2 : DataCollection.extract_review_text doc with
    | error e => rw [h2] at h; cases h
    | ok texts =>
      rw [h2] at h
      cases h3 : DataCollection.extract_movie_title doc with
      | error e => rw [h3] at h; cases h
      | ok title =>
        rw [h3] at h
        cases h
        exact ⟨scores, texts, title, rfl, rfl, rfl, rfl⟩

/-- C2 (amended): the constructor performs no alignment check between
    the score and text extractions: whenever it succeeds, the score list
    has exactly one entry per rating-widget node of the document and the
    text list exactly one entry per review-text node — the two lengths
    are not compared, so a misaligned document yields a misaligned
    scraper rather than a NotFoundError("aligned reviews") (which does
    not exist in the code). -/
theorem claim_C2_amended (doc : Node) (s : DataCollection.RottenTomatoesScraper)
    (h : DataCollection.RottenTomatoesScraper.init doc = .ok s) :
    s.review_scores.length = (find_all doc (Node.hasClass ("star-display"))).length
    ∧ s.review_text.length = (find_all doc
        (fun n => n.nameIs ("p") && n.hasClass ("audience-reviews__review"))).length := by
  obtain ⟨scores, texts, title, h1, h2, h3, rfl⟩ := init_ok_elim h
  constructor
  · unfold DataCollection.extract_review_scores at h1
    simp only [] at h1
    split at h1
    · cases h1
    · exact mapExcept_length _ _ _ h1
  · unfold DataCollection.extract_review_text at h2
    simp only [] at h2
    split at h2
    · cases h2
    · cases h2
      simp

/-- C2 counterexample: on the misaligned page (3 rating widgets, 2
    review texts) the constructor succeeds with lists of lengths 3 and
    2, instead of failing with NotFoundError("aligned reviews") as the
    claim states. -/
theorem claim_C2_counterexample :
    ∃ s, DataCollection.RottenTomatoesScraper.init mismatchedPage = .ok s
      ∧ s.review_scores.length = 3 ∧ s.review_text.length = 2 :=
  ⟨_, rfl, rfl, rfl⟩

/-- C2 witness: the amended statement instantiated on the misaligned
    page, whose widget and text counts are 3 and 2. -/
theorem claim_C2_witness :
    ∃ s, DataCollection.RottenTomatoesScraper.init mismatchedPage = .ok s
      ∧ s.review_scores.length
          = (find_all mismatchedPage (Node.hasClass ("star-display"))).length
      ∧ s.review_text.length = (find_all mismatchedPage
          (fun n => n.nameIs ("p") && n.hasClass ("audience-reviews__review"))).length := by
  refine ⟨_, rfl, ?_, ?_⟩
  · exact (claim_C2_amended mismatchedPage _ (by rfl)).1
  · exact (claim_C2_amended mismatchedPage _ (by rfl)).2

/-- C9: whenever the scraper constructor succeeds, the Title column of
    the dictionary it exposes has exactly one entry (the extracted
    title) per extracted score, with no constraint tying it to the
    review-text column; likewise for the WebApp variant, whose to_dict
    builds the title column on the fly. -/
theorem claim_C9 :
    (∀ (doc : Node) (s : DataCollection.RottenTomatoesScraper),
        DataCollection.RottenTomatoesScraper.init doc = .ok s →
        (DataCollection.RottenTomatoesScraper.to_dict s).Title.length
            = (DataCollection.RottenTomatoesScraper.to_dict s).Score.length
        ∧ (DataCollection.RottenTomatoesScraper.to_dict s).Title
            = List.replicate s.review_scores.length s.title)
    ∧ (∀ t : WebApp.RottenTomatoesScraper,
        (WebApp.RottenTomatoesScraper.to_dict t).Title.length
            = (WebApp.RottenTomatoesScraper.to_dict t).Scores.length) := by
  constructor
  · intro doc s h
    obtain ⟨scores, texts, title, h1, h2, h3, rfl⟩ := init_ok_elim h
    constructor
    · simp [DataCollection.RottenTomatoesScraper.to_dict]
    · simp [DataCollection.RottenTomatoesScraper.to_dict, List.map_const']
  · intro t
    simp [WebApp.RottenTomatoesScraper.to_dict]

/-- C9 witness: on the misaligned page (2 review texts) the Title and
    Score columns still have equal length 3; the WebApp to_dict length
    equality instantiated on a concrete scraper value. -/
theorem claim_C9_witness :
    (∃ s, DataCollection.RottenTomatoesScraper.init mismatchedPage = .ok s
       ∧ (DataCollection.RottenTomatoesScraper.to_dict s).Title.length
           = (DataCollection.RottenTomatoesScraper.to_dict s).Score.length)
    ∧ (WebApp.RottenTomatoesScraper.to_dict ⟨[1, 2], [("a")], ("T")⟩).Title.length
        = (WebApp.RottenTomatoesScraper.to_dict ⟨[1, 2], [("a")], ("T")⟩).Scores.length := by
  refine ⟨⟨_, rfl, ?_⟩, claim_C9.2 _⟩
  exact (claim_C9.1 mismatchedPage _ (by rfl)).1

/-- C10: when the title node exists and its raw text is non-empty with
    at most 8 characters, both title extractors succeed and return the
    empty string — the emptiness check is applied to the raw text
    before the 8-character suffix is sliced off, so no not-found error
    is raised. -/
theorem claim_C10 (doc node : Node)
    (hfind : find doc (fun n => n.nameIs ("h2") && n.hasClass ("panel-heading"))
        = some node)
    (hne : node.text ≠ "") (hlen : node.text.data.length ≤ 8) :
    DataCollection.extract_movie_title doc = .ok ""
    ∧ WebApp.extract_movie_title doc = .ok "" := by
  have hdrop : pyDropLast 8 node.text = "" := by
    rw [pyDropLast, Nat.sub_eq_zero_of_le hlen]
    rfl
  constructor
  · unfold DataCollection.extract_movie_title
    rw [hfind]
    simp [hne, hdrop]
  · unfold WebApp.extract_movie_title
    rw [hfind]
    simp [hne, hdrop]

/-- C10 witness: a page whose title text is exactly the 8 characters
    "Reviews." yields the empty title from both extractors. -/
theorem claim_C10_witness :
    DataCollection.extract_movie_title suffixOnlyPage = .ok ""
    ∧ WebApp.extract_movie_title suffixOnlyPage = .ok "" :=
  claim_C10 suffixOnlyPage (titleH2 ("Reviews.")) rfl (by decide) (by decide)

/-- C6 (amended): title extraction fails with NotFoundError("movie
    title") exactly when the title node is present but its raw text is
    empty; when the node is absent the code instead crashes with the
    AttributeError of None.text; otherwise it succeeds and returns the
    text with its last 8 characters sliced off — which is the empty
    string, not an error, whenever the raw text has at most 8
    characters. -/
theorem claim_C6_amended (doc : Node) :
    (find doc (fun n => n.nameIs ("h2") && n.hasClass ("panel-heading")) = none →
        WebApp.extract_movie_title doc = .error .noneHasNoText)
    ∧ (∀ node, find doc (fun n => n.nameIs ("h2") && n.hasClass ("panel-heading"))
          = some node →
        (node.text = "" →
            WebApp.extract_movie_title doc = .error (.notFound ("movie title")))
        ∧ (node.text ≠ "" →
            WebApp.extract_movie_title doc = .ok (pyDropLast 8 node.text))) := by
  constructor
  · intro h
    unfold WebApp.extract_movie_title
    rw [h]
  · intro node h
    constructor
    · intro he
      unfold WebApp.extract_movie_title
      rw [h]
      simp [he]
    · intro hne
      unfold WebApp.extract_movie_title
      rw [h]
      simp [hne]

/-- C6 counterexample: a title whose text is the bare 8-character
    suffix makes extraction succeed with the empty string (the claim
    demands NotFoundError there, since the text is empty after
    stripping), and an absent title node raises the None attribute
    crash, not NotFoundError("movie title"). -/
theorem claim_C6_counterexample :
    WebApp.extract_movie_title suffixOnlyPage = .ok ""
    ∧ WebApp.extract_movie_title noTitlePage = .error .noneHasNoText
    ∧ PyErr.noneHasNoText ≠ PyErr.notFound ("movie title") :=
  ⟨rfl, rfl, by decide⟩

/-- C6 witness: the amended trichotomy instantiated on a page without a
    title node and on a page whose title node text is empty. -/
theorem claim_C6_witness :
    WebApp.extract_movie_title noTitlePage = .error .noneHasNoText
    ∧ WebApp.extract_movie_title emptyTitlePage = .error (.notFound ("movie title")) :=
  ⟨(claim_C6_amended noTitlePage).1 rfl,
    ((claim_C6_amended emptyTitlePage).2 (titleH2 ("")) rfl).1 rfl⟩

/-- Appending an empty page frame changes nothing. -/
theorem dataFrame_append_nil (acc : DataCollection.DataFrame) :
    acc.append ⟨[], [], []⟩ = acc := by
  cases acc
  simp [DataCollection.DataFrame.append]

/-- Appending to the empty accumulator yields the page frame itself. -/
theorem dataFrame_nil_append (d : DataCollection.DataFrame) :
    DataCollection.DataFrame.append ⟨[], [], []⟩ d = d := by
  cases d
  simp [DataCollection.DataFrame.append]

/-- Frame concatenation is associative. -/
theorem dataFrame_append_assoc (a b c : DataCollection.DataFrame) :
    (a.append b).append c = a.append (b.append c) := by
  cases a; cases b; cases c
  simp [DataCollection.DataFrame.append]

/-- Unfolding of the concatenated frame of a non-empty page list. -/
theorem concatFrames_cons (md : DataCollection.RottenTomatoesScraper)
    (mds : List DataCollection.RottenTomatoesScraper) :
    DataCollection.concatFrames (md :: mds)
      = (DataCollection.pageFrame md).append (DataCollection.concatFrames mds) := by
  simp [DataCollection.concatFrames, DataCollection.pageFrame,
    DataCollection.DataFrame.append]

/-- The assembler loop over pages that all have non-None responses is
    the fallible comprehension of the scraper constructor followed by
    frame concatenation onto the accumulator. -/
theorem generate_df_loop_eq (rs : List DataCollection.Response) :
    ∀ acc, DataCollection.generate_df_loop acc (rs.map some)
      = Except.map (fun mds => acc.append (DataCollection.concatFrames mds))
          (mapExcept (fun r => DataCollection.RottenTomatoesScraper.init r.content) rs) := by
  induction rs with
  | nil =>
    intro acc
    simp [DataCollection.generate_df_loop, mapExcept, Except.map,
      DataCollection.concatFrames, dataFrame_append_nil]
  | cons r rs ih =>
    intro acc
    cases hr : DataCollection.RottenTomatoesScraper.init r.content with
    | error e =>
      simp [DataCollection.generate_df_loop, mapExcept, hr, Except.map]
    | ok md =>
      have hloop : DataCollection.generate_df_loop acc ((r :: rs).map some)
          = DataCollection.generate_df_loop
              (acc.append (DataCollection.pageFrame md)) (rs.map some) := by
        simp [DataCollection.generate_df_loop, hr, DataCollection.pageFrame]
      rw [hloop, ih]
      cases hml : mapExcept
          (fun r => DataCollection.RottenTomatoesScraper.init r.content) rs with
      | error e =>
        simp [mapExcept, hr, hml, Except.map]
      | ok mds =>
        simp [mapExcept, hr, hml, Except.map, concatFrames_cons,
          dataFrame_append_assoc]

/-- C3 (amended): the assembler performs no per-page failure isolation:
    as soon as any page fails extraction, the raised error propagates
    out of generate_df, the whole batch is discarded and no skip is
    recorded; when every page's extraction succeeds, the concatenated
    columns are handed to the data-frame constructor, which raises the
    pandas equal-length ValueError if the three columns differ in
    length and otherwise returns the rows of all pages in order. -/
theorem claim_C3_amended (rs : List DataCollection.Response) :
    (∀ mds, mapExcept
          (fun r => DataCollection.RottenTomatoesScraper.init r.content) rs = .ok mds →
        (DataCollection.concatFrames mds).sameLength = true →
        DataCollection.generate_df (rs.map some)
          = .ok (DataCollection.concatFrames mds))
    ∧ (∀ mds, mapExcept
          (fun r => DataCollection.RottenTomatoesScraper.init r.content) rs = .ok mds →
        (DataCollection.concatFrames mds).sameLength = false →
        DataCollection.generate_df (rs.map some) = .error .valueErrorArrayLengths)
    ∧ (∀ e, mapExcept
          (fun r => DataCollection.RottenTomatoesScraper.init r.content) rs = .error e →
        DataCollection.generate_df (rs.map some) = .error e) := by
  refine ⟨?_, ?_, ?_⟩
  · intro mds h hlen
    unfold DataCollection.generate_df
    rw [generate_df_loop_eq, h]
    simp [Except.map, dataFrame_nil_append, hlen]
  · intro mds h hlen
    unfold DataCollection.generate_df
    rw [generate_df_loop_eq, h]
    simp [Except.map, dataFrame_nil_append, hlen]
  · intro e h
    unfold DataCollection.generate_df
    rw [generate_df_loop_eq, h]
    rfl

/-- C3 counterexample: with a well-formed first page and a widget-free
    second page, generate_df raises the extraction error of page 2
    instead of returning the rows of page 1 along with one recorded
    skip, as the claim states. -/
theorem claim_C3_counterexample :
    DataCollection.generate_df [some respFoo, some respNoStars]
      = .error .noStarDisplays := rfl

/-- C3 witness: the amended statement instantiated on a batch whose
    single page extracts cleanly with aligned columns, on a batch whose
    single page extracts cleanly but misaligned (the pandas ValueError
    branch), and on a batch whose second page fails extraction. -/
theorem claim_C3_witness :
    (∃ mds, mapExcept
          (fun r => DataCollection.RottenTomatoesScraper.init r.content) [respFoo]
          = .ok mds
        ∧ (DataCollection.concatFrames mds).sameLength = true
        ∧ DataCollection.generate_df ([respFoo].map some)
            = .ok (DataCollection.concatFrames mds))
    ∧ (∃ mds, mapExcept
          (fun r => DataCollection.RottenTomatoesScraper.init r.content) [respMismatched]
          = .ok mds
        ∧ (DataCollection.concatFrames mds).sameLength = false
        ∧ DataCollection.generate_df ([respMismatched].map some)
            = .error .valueErrorArrayLengths)
    ∧ DataCollection.generate_df ([respFoo, respNoStars].map some)
        = .error .noStarDisplays := by
  refine ⟨⟨_, rfl, rfl, ?_⟩, ⟨_, rfl, rfl, ?_⟩, ?_⟩
  · exact (claim_C3_amended [respFoo]).1 _ (by rfl) (by rfl)
  · exact (claim_C3_amended [respMismatched]).2.1 _ (by rfl) (by rfl)
  · exact (claim_C3_amended [respFoo, respNoStars]).2.2 _ (by rfl)

/-- The request log of one fetch attempt whose 403 continuation carries
    no log of its own: exactly one (profile, url) entry per input URL,
    whatever the scan outcome. -/
theorem core_log_of_nil (net : DataCollection.Net) (urls : List String)
    (hdr : DataCollection.HeaderProfile)
    (x : Except PyErr (List (Option DataCollection.Response))
        × List (DataCollection.HeaderProfile × String))
    (hx : x.2 = []) :
    (DataCollection.get_responses_core net urls hdr x).2
      = urls.map (fun u => (hdr, u)) := by
  unfold DataCollection.get_responses_core
  cases h : DataCollection.scan403 (urls.map (net hdr)) <;>
    simp [h, hx, apply_ite]

/-- C1 (amended): when the scan of the first attempt reaches a 403
    (some response is 403 and no None transport failure precedes it in
    result order), the entire URL set is re-fetched exactly once under
    the alternate firefox profile — the request log is exactly the two
    full passes and nothing more; if the scan of the second attempt also
    reaches a 403, the fetch raises the blocked HTTPError and no third
    attempt occurs. A transport failure ordered before every 403 instead
    crashes the scan, so the unconditional form of the claim fails. -/
theorem claim_C1_amended (net : DataCollection.Net) (urls : List String)
    (hdr : DataCollection.HeaderProfile)
    (h1 : DataCollection.scan403 (urls.map (net hdr)) = .found403) :
    (DataCollection.get_responsesT net urls hdr).2
        = urls.map (fun u => (hdr, u))
          ++ urls.map (fun u => (DataCollection.HeaderProfile.firefox_header, u))
    ∧ (DataCollection.scan403
          (urls.map (net .firefox_header)) = .found403 →
        DataCollection.get_responses net urls hdr = .error .blocked403Again) := by
  constructor
  · unfold DataCollection.get_responsesT
    have hlog := core_log_of_nil net urls DataCollection.HeaderProfile.firefox_header
      (.error .blocked403Again, []) rfl
    simp only [DataCollection.get_responses_core, h1]
    unfold DataCollection.get_responses_retryT
    rw [hlog]
  · intro h2
    unfold DataCollection.get_responses DataCollection.get_responsesT
    simp only [DataCollection.get_responses_core, h1]
    unfold DataCollection.get_responses_retryT
    simp only [DataCollection.get_responses_core, h2]

/-- C1 witness: one URL answering 403 under both profiles: the log
    shows exactly the two passes and the result is the blocked error. -/
theorem claim_C1_witness :
    (DataCollection.get_responsesT netAll403 [("u")] .safari_header).2
        = ([("u")].map (fun u => (DataCollection.HeaderProfile.safari_header, u)))
          ++ ([("u")].map (fun u => (DataCollection.HeaderProfile.firefox_header, u)))
    ∧ DataCollection.get_responses netAll403 [("u")] .safari_header
        = .error .blocked403Again :=
  ⟨(claim_C1_amended netAll403 [("u")] .safari_header rfl).1,
    (claim_C1_amended netAll403 [("u")] .safari_header rfl).2 rfl⟩

/-- C1 counterexample: URL "a" fails at transport (None) and URL "b"
    answers 403, so attempt 1 does yield a 403 response; yet the batch
    is not re-fetched under the alternate profile and no BlockedError is
    raised: the scan crashes on the None entry, the result is the None
    attribute error, and the request log stops after the first pass. -/
theorem claim_C1_counterexample :
    (([("a"), ("b")].map (netNoneThen403 .safari_header)).any
        (fun o => o.elim false (fun r => r.status_code == 403)) = true)
    ∧ DataCollection.get_responses netNoneThen403 [("a"), ("b")] .safari_header
        = .error .noneHasNoElapsed
    ∧ (DataCollection.get_responsesT netNoneThen403 [("a"), ("b")] .safari_header).2
        = [(DataCollection.HeaderProfile.safari_header, ("a")),
            (DataCollection.HeaderProfile.safari_header, ("b"))] :=
  ⟨rfl, rfl, rfl⟩

/-- One fetch attempt can only return a non-empty response list: the ok
    branch is guarded by the emptiness check, provided the continuation
    has the same property. -/
theorem core_ok_ne_nil (net : DataCollection.Net) (urls : List String)
    (hdr : DataCollection.HeaderProfile)
    (x : Except PyErr (List (Option DataCollection.Response))
        × List (DataCollection.HeaderProfile × String))
    (hx : ∀ rs, x.1 = .ok rs → rs ≠ []) :
    ∀ rs, (DataCollection.get_responses_core net urls hdr x).1 = .ok rs → rs ≠ [] := by
  intro rs h
  unfold DataCollection.get_responses_core at h
  simp only [] at h
  cases hscan : DataCollection.scan403 (urls.map (net hdr)) <;> rw [hscan] at h
  · simp at h
  · exact hx rs h
  · by_cases hc : (List.map (net hdr) urls).isEmpty = true
    · rw [if_pos hc] at h
      simp at h
    · rw [if_neg hc] at h
      simp at h
      intro hnil
      rw [hnil] at h
      exact hc (by rw [h]; rfl)

/-- C7 (amended): with zero URLs the fetcher raises the
    "No responses were recieved" AttributeError (the spec's
    EmptyResultError); when the URL list is non-empty but every request
    fails at the transport level, it also fails — but with the None
    attribute crash of the elapsed-time scan, not with the
    EmptyResultError raise; and no execution path returns an empty
    response sequence. -/
theorem claim_C7_amended (net : DataCollection.Net) (urls : List String)
    (hdr : DataCollection.HeaderProfile) :
    (urls = [] → DataCollection.get_responses net urls hdr = .error .noResponses)
    ∧ (urls ≠ [] → (∀ u ∈ urls, net hdr u = none) →
        DataCollection.get_responses net urls hdr = .error .noneHasNoElapsed)
    ∧ (∀ rs, DataCollection.get_responses net urls hdr = .ok rs → rs ≠ []) := by
  refine ⟨?_, ?_, ?_⟩
  · intro h
    subst h
    rfl
  · intro hne hall
    cases urls with
    | nil => exact absurd rfl hne
    | cons u rest =>
      have h1 : net hdr u = none := hall u (List.mem_cons_self u rest)
      unfold DataCollection.get_responses DataCollection.get_responsesT
      simp only [DataCollection.get_responses_core, List.map_cons, h1]
      rfl
  · have hretry := core_ok_ne_nil net urls DataCollection.HeaderProfile.firefox_header
      (.error .blocked403Again, []) (fun rs0 h0 => by simp at h0)
    exact core_ok_ne_nil net urls hdr
      (DataCollection.get_responses_retryT net urls) hretry

/-- C7 witness: the amended statement instantiated on the empty URL
    list and on a one-URL batch whose transport always fails. -/
theorem claim_C7_witness :
    DataCollection.get_responses netNone [] .safari_header = .error .noResponses
    ∧ DataCollection.get_responses netNone [("u")] .safari_header
        = .error .noneHasNoElapsed :=
  ⟨(claim_C7_amended netNone [] .safari_header).1 rfl,
    (claim_C7_amended netNone [("u")] .safari_header).2.1 (by simp)
      (fun u _ => rfl)⟩

/-- C7 counterexample: a one-URL batch in which the only request fails
    at transport level does fail, but with the None attribute error of
    the elapsed scan, not the EmptyResultError raise
    ("No responses were recieved") the claim names. -/
theorem claim_C7_counterexample :
    DataCollection.get_responses netNone [("u")] .safari_header
        = .error .noneHasNoElapsed
    ∧ PyErr.noneHasNoElapsed ≠ PyErr.noResponses :=
  ⟨rfl, by decide⟩

/-- Index-addressed writes preserve the buffer length. -/
theorem runWrites_length {α : Type _} :
    ∀ (ws : List (Nat × α)) (buf : List α),
      (DataCollection.runWrites buf ws).length = buf.length := by
  intro ws
  induction ws with
  | nil => intro buf; rfl
  | cons w ws ih =>
    intro buf
    cases w with
    | mk i v =>
      show (DataCollection.runWrites (buf.set i v) ws).length = buf.length
      rw [ih, List.length_set]

/-- A slot no write addresses keeps its buffer value. -/
theorem runWrites_getElem?_not_mem {α : Type _} :
    ∀ (ws : List (Nat × α)) (buf : List α) (j : Nat),
      j ∉ ws.map Prod.fst →
      (DataCollection.runWrites buf ws)[j]? = buf[j]? := by
  intro ws
  induction ws with
  | nil => intro buf j _; rfl
  | cons w ws ih =>
    intro buf j hj
    cases w with
    | mk i v =>
      rw [List.map_cons, List.mem_cons] at hj
      push_neg at hj
      show (DataCollection.runWrites (buf.set i v) ws)[j]? = buf[j]?
      rw [ih _ _ hj.2, List.getElem?_set_ne (Ne.symm hj.1)]

/-- A slot addressed by exactly one write (distinct write indices) ends
    up holding that write's value. -/
theorem runWrites_getElem?_mem {α : Type _} :
    ∀ (ws : List (Nat × α)) (buf : List α) (j : Nat) (v : α),
      (ws.map Prod.fst).Nodup → (j, v) ∈ ws → j < buf.length →
      (DataCollection.runWrites buf ws)[j]? = some v := by
  intro ws
  induction ws with
  | nil => intro buf j v _ hmem _; cases hmem
  | cons w ws ih =>
    intro buf j v hnodup hmem hlt
    cases w with
    | mk i w2 =>
      rw [List.map_cons, List.nodup_cons] at hnodup
      rcases List.mem_cons.mp hmem with heq | hmem2
      · cases heq
        show (DataCollection.runWrites (buf.set j v) ws)[j]? = some v
        rw [runWrites_getElem?_not_mem ws _ j hnodup.1]
        exact List.getElem?_set_eq_of_lt v hlt
      · show (DataCollection.runWrites (buf.set i w2) ws)[j]? = some v
        exact ih _ j v hnodup.2 hmem2 (by rw [List.length_set]; exact hlt)

/-- Projecting the indices out of the write list gives back the
    completion order. -/
theorem map_fst_map_pair {α β : Type _} (f : α → β) :
    ∀ (l : List α), (l.map (fun i => (i, f i))).map Prod.fst = l := by
  intro l
  induction l with
  | nil => rfl
  | cons a l ih => simp [ih]

/-- C5: whatever order the concurrent tasks complete in (any
    permutation of the request indices), the collected response list is
    index-aligned with the input URL list: it equals the in-order map of
    the transport over the URLs, which is exactly the list get_responses
    scans and returns. -/
theorem claim_C5 (net : DataCollection.Net) (hdr : DataCollection.HeaderProfile)
    (urls : List String) (order : List Nat)
    (hperm : order.Perm (List.range urls.length)) :
    DataCollection.grequests_map net hdr urls order
      = DataCollection.get_responses_attempt net urls hdr := by
  have hnodup : order.Nodup := hperm.nodup_iff.mpr (List.nodup_range _)
  apply List.ext_getElem?
  intro j
  by_cases hj : j < urls.length
  · have hmem : (j, net hdr (urls.getD j "")) ∈
        order.map (fun i => (i, net hdr (urls.getD i ""))) :=
      List.mem_map.mpr ⟨j, hperm.mem_iff.mpr (List.mem_range.mpr hj), rfl⟩
    have h1 : (DataCollection.grequests_map net hdr urls order)[j]?
        = some (net hdr (urls.getD j "")) := by
      unfold DataCollection.grequests_map
      exact runWrites_getElem?_mem _ _ j _
        (by rw [map_fst_map_pair]; exact hnodup) hmem
        (by rw [List.length_replicate]; exact hj)
    rw [h1]
    unfold DataCollection.get_responses_attempt
    rw [List.getElem?_map, List.getElem?_eq_getElem hj,
      List.getD_eq_getElem urls "" hj]
    rfl
  · have hlen1 : (DataCollection.grequests_map net hdr urls order).length
        = urls.length := by
      unfold DataCollection.grequests_map
      rw [runWrites_length, List.length_replicate]
    have hlen2 : (DataCollection.get_responses_attempt net urls hdr).length
        = urls.length := by
      unfold DataCollection.get_responses_attempt
      rw [List.length_map]
    rw [List.getElem?_eq_none (by rw [hlen1]; omega),
      List.getElem?_eq_none (by rw [hlen2]; omega)]

/-- C5 witness: three URLs whose tasks complete in the order 2, 0, 1
    still produce the response list in input order. -/
theorem claim_C5_witness :
    ([2, 0, 1] : List Nat).Perm
        (List.range ([("A"), ("B"), ("C")] : List String).length)
    ∧ DataCollection.grequests_map netOk .safari_header
          [("A"), ("B"), ("C")] [2, 0, 1]
        = DataCollection.get_responses_attempt netOk
            [("A"), ("B"), ("C")] .safari_header :=
  ⟨by decide,
    claim_C5 netOk .safari_header [("A"), ("B"), ("C")] [2, 0, 1] (by decide)⟩

end MovieSentiments
